import Mathlib

/-!
Shallow embedding of the guest-personality-expander plugin
(src/guest-personality-expander.js).

Conventions of the embedding:
* JS objects keyed by guest/group id become association lists
  `List (ℕ × α)`; `aset` models `obj[k] = v` (keys stay unique because
  JS object keys are unique), `aerase` models `delete obj[k]`,
  `alookup` models `obj[k]`.
* JS numbers become `ℤ` where the source only stores integers
  (physiological signals, traits, thresholds) and `ℚ` where fractional
  arithmetic occurs (mood intensity, satisfaction, probabilities);
  `Math.round` is Mathlib's `round` (both are `⌊x + 1/2⌋`).
* Host-simulation queries (`map.getAllEntities`, `map.getEntity`,
  `map.getAllEntitiesOnTile`, `climate.current`, random draws,
  `date.ticksElapsed`) are supplied through an `Env` record; a query
  that can throw is modelled with `Option` (`none` = missing / threw,
  matching the source's catch-and-default blocks).
* `NetworkHelper.canModifyGameState()` is the explicit `cm : Bool`
  argument of every function that consults it in the source; functions
  that do not consult it in the source take no such argument.
* The Box–Muller Gaussian draw (`RandomGenerator.getGaussianRandom`)
  returns `Math.round` of a real; the rounded result is modelled as an
  integer oracle `Env.gaussFor` (one value per guest and trait index).
-/

namespace GPE

/-- `obj[k]` on a JS object keyed by numbers. -/
def alookup {α : Type} : List (ℕ × α) → ℕ → Option α
  | [], _ => none
  | (k', v) :: rest, k => if k = k' then some v else alookup rest k

/-- `obj[k] = v` on a JS object: replace the binding if present, else append. -/
def aset {α : Type} : List (ℕ × α) → ℕ → α → List (ℕ × α)
  | [], k, v => [(k, v)]
  | (k', v') :: rest, k, v =>
    if k = k' then (k, v) :: rest else (k', v') :: aset rest k v

/-- `delete obj[k]` on a JS object (keys are unique, so dropping every
binding for `k` is the same as dropping the one binding). -/
def aerase {α : Type} (l : List (ℕ × α)) (k : ℕ) : List (ℕ × α) :=
  l.filter (fun kv => kv.1 ≠ k)

/-- The 14 `MOOD_STATES`. -/
inductive MoodState where
  | ecstatic | happy | content | neutral | bored | annoyed | sad | angry
  | scared | excited | tired | hungryMood | thirstyMood | sick
deriving DecidableEq

/-- The 13 `BEHAVIOR_TYPES`. -/
inductive BehaviorType where
  | wandering | seekingRide | seekingFood | seekingDrink | seekingToilet
  | seekingShelter | socializing | resting | photoTaking | shopping
  | leaving | followingGroup | leadingGroup
deriving DecidableEq

/-- Weather states the source distinguishes in `getWeatherBehavior`. -/
inductive Weather where
  | rain | heavyRain | thunder | other
deriving DecidableEq

/-- Group formation mode (the source only ever uses `'follow'`). -/
inductive Formation where
  | follow
deriving DecidableEq

/-- The 12-dimensional trait vector (`PERSONALITY_TRAITS`). -/
structure Traits where
  thrillSeeker : ℤ
  social : ℤ
  patient : ℤ
  frugal : ℤ
  hungry : ℤ
  adventurous : ℤ
  nervous : ℤ
  energetic : ℤ
  romantic : ℤ
  foodie : ℤ
  collector : ℤ
  photographer : ℤ
deriving DecidableEq

/-- `personality.mood`. -/
structure MoodData where
  current : MoodState
  intensity : ℚ
  lastChange : ℕ
deriving DecidableEq

/-- `data.behavior.target` for seeking-ride (`{type:'ride', preferredIntensity}`). -/
structure BehaviorTarget where
  preferredIntensity : ℤ
deriving DecidableEq

/-- `personality.behavior`. -/
structure BehaviorData where
  current : BehaviorType
  target : Option BehaviorTarget
  startTick : ℕ
deriving DecidableEq

/-- `personality.social`. -/
structure SocialData where
  groupId : Option ℕ
  isLeader : Bool
  friendIds : List ℕ
  recentInteractions : ℕ
deriving DecidableEq

/-- One entry of `memory.ridesRidden`. -/
structure RideMemory where
  timesRidden : ℕ
  totalSatisfaction : ℚ
deriving DecidableEq

/-- One entry of `memory.itemsBought` (item kind, price, tick). -/
structure PurchaseRecord where
  item : ℕ
  price : ℤ
  tick : ℕ
deriving DecidableEq

/-- `personality.memory`. -/
structure MemoryData where
  ridesRidden : List (ℕ × RideMemory)
  favoriteRide : Option ℕ
  worstExperience : Option ℕ
  totalSpent : ℤ
  itemsBought : List PurchaseRecord
  timeInPark : ℕ
deriving DecidableEq

/-- `personality.modifiers`. -/
structure Modifiers where
  happinessBonus : ℚ
  energyDrain : ℚ
  hungerRate : ℚ
  thirstRate : ℚ
  spendingMultiplier : ℚ
deriving DecidableEq

/-- `personality.stats`. -/
structure StatsData where
  moodChanges : ℕ
  behaviorsChanged : ℕ
  socialInteractions : ℕ
  decisionsInfluenced : ℕ
deriving DecidableEq

/-- A per-guest profile (`createNewPersonality`'s shape). -/
structure Personality where
  id : ℕ
  createdTick : ℕ
  traits : Traits
  mood : MoodData
  behavior : BehaviorData
  social : SocialData
  memory : MemoryData
  modifiers : Modifiers
  stats : StatsData
deriving DecidableEq

/-- A group record (`PersonalityStore.createGroup`'s shape). -/
structure Group where
  id : ℕ
  leaderId : ℕ
  members : List ℕ
  formation : Formation
  targetRide : Option ℕ
  createdTick : ℕ
deriving DecidableEq

/-- `PersonalityStore`'s mutable state. -/
structure Store where
  guests : List (ℕ × Personality)
  groups : List (ℕ × Group)
  nextGroupId : ℕ
deriving DecidableEq

/-- Host guest entity: the fields of a `map.getEntity('guest')` result the
plugin reads or writes. -/
structure Guest where
  id : ℕ
  hunger : ℤ
  thirst : ℤ
  toilet : ℤ
  energy : ℤ
  nausea : ℤ
  happiness : ℤ
  happinessTarget : ℤ
  energyTarget : ℤ
  isInPark : Bool
  hasUmbrella : Bool
  x : ℤ
  y : ℤ
deriving DecidableEq

/-- The tunable `CONFIG` fields the embedded operations consult. -/
structure Config where
  weatherReactionsEnabled : Bool
  ridePreferencesEnabled : Bool
  socialBehaviorEnabled : Bool
  happyMoodThreshold : ℤ
  neutralMoodThreshold : ℤ
  sadMoodThreshold : ℤ
  moodInfluenceStrength : ℚ
  groupFormationChance : ℚ
  maxGuestsPerTick : ℕ
  frameBudgetMs : ℚ
deriving DecidableEq

/-- The shipped `CONFIG` values for the fields above. -/
def cfgDefault : Config where
  weatherReactionsEnabled := true
  ridePreferencesEnabled := true
  socialBehaviorEnabled := true
  happyMoodThreshold := 180
  neutralMoodThreshold := 120
  sadMoodThreshold := 60
  moodInfluenceStrength := 1/2
  groupFormationChance := 3/20
  maxGuestsPerTick := 5
  frameBudgetMs := 5/2

/-- Host-simulation oracle: tick counter, random draws and spatial queries.
Random draws are indexed by guest id so that a fixed environment fixes
every draw the engines may consume. -/
structure Env where
  tick : ℕ
  gaussFor : ℕ → ℕ → ℤ
  nearbyCount : ℕ → ℕ
  weather : Option Weather
  rWeather : ℕ → ℚ
  rPhoto : ℕ → ℚ
  rShopping : ℕ → ℚ
  rSocialize : ℕ → ℚ
  rLeave : ℕ → ℚ
  scan : ℕ → List ℕ
  resolve : ℕ → Option (ℤ × ℤ)
  evictDraw : ℕ → ℚ

/-- A simple concrete environment for witnesses: mid-range Gaussian draws,
no neighbours, failed weather query, all uniform draws `1/2`. -/
def envDefault : Env where
  tick := 0
  gaussFor := fun _ _ => 128
  nearbyCount := fun _ => 0
  weather := none
  rWeather := fun _ => 1/2
  rPhoto := fun _ => 1/2
  rShopping := fun _ => 1/2
  rSocialize := fun _ => 1/2
  rLeave := fun _ => 1/2
  scan := fun _ => []
  resolve := fun _ => none
  evictDraw := fun _ => 1/2

namespace PersonalityStore

/-- The clamp `Math.max(0, Math.min(255, value))` applied to each trait draw. -/
def clampTrait (v : ℤ) : ℤ := max 0 (min 255 v)

/-- `PersonalityStore.calculateModifiers`: updates the four derived
modifiers of a profile from its traits. -/
def calculateModifiers (t : Traits) (m : Modifiers) : Modifiers :=
  { m with
    energyDrain := 1 - ((t.energetic : ℚ) - 128) / 512
    hungerRate := 4/5 + ((t.hungry : ℚ) / 255) * (2/5)
    thirstRate := 4/5 + ((t.energetic : ℚ) / 255) * (2/5)
    spendingMultiplier := 3/2 - (t.frugal : ℚ) / 255 }

/-- `PersonalityStore.createNewPersonality`: defaults, then one clamped
Gaussian draw per trait (in `PERSONALITY_TRAITS` key order), then
`calculateModifiers`. -/
def createNewPersonality (env : Env) (gid : ℕ) : Personality :=
  let t : Traits :=
    { thrillSeeker := clampTrait (env.gaussFor gid 0)
      social := clampTrait (env.gaussFor gid 1)
      patient := clampTrait (env.gaussFor gid 2)
      frugal := clampTrait (env.gaussFor gid 3)
      hungry := clampTrait (env.gaussFor gid 4)
      adventurous := clampTrait (env.gaussFor gid 5)
      nervous := clampTrait (env.gaussFor gid 6)
      energetic := clampTrait (env.gaussFor gid 7)
      romantic := clampTrait (env.gaussFor gid 8)
      foodie := clampTrait (env.gaussFor gid 9)
      collector := clampTrait (env.gaussFor gid 10)
      photographer := clampTrait (env.gaussFor gid 11) }
  { id := gid
    createdTick := env.tick
    traits := t
    mood := { current := .content, intensity := 128, lastChange := env.tick }
    behavior := { current := .wandering, target := none, startTick := env.tick }
    social := { groupId := none, isLeader := false, friendIds := [], recentInteractions := 0 }
    memory := { ridesRidden := [], favoriteRide := none, worstExperience := none
                totalSpent := 0, itemsBought := [], timeInPark := 0 }
    modifiers := calculateModifiers t
      { happinessBonus := 0, energyDrain := 1, hungerRate := 1
        thirstRate := 1, spendingMultiplier := 1 }
    stats := { moodChanges := 0, behaviorsChanged := 0
               socialInteractions := 0, decisionsInfluenced := 0 } }

/-- `PersonalityStore.getGuestData`: create-if-absent, then return.
Note: the source consults no authority check here. -/
def getGuestData (env : Env) (gid : ℕ) (st : Store) : Personality × Store :=
  match alookup st.guests gid with
  | some p => (p, st)
  | none =>
    let p := createNewPersonality env gid
    (p, { st with guests := aset st.guests gid p })

/-- `PersonalityStore.hasGuestData`. -/
def hasGuestData (gid : ℕ) (st : Store) : Bool :=
  (alookup st.guests gid).isSome

/-- `PersonalityStore.removeGuestData`: splice the guest out of its group's
member array, delete the group only if that leaves it empty, then delete
the profile.  (The source never touches `leaderId` here.) -/
def removeGuestData (gid : ℕ) (st : Store) : Store :=
  match alookup st.guests gid with
  | none => st
  | some p =>
    let st1 :=
      match p.social.groupId with
      | none => st
      | some grpId =>
        match alookup st.groups grpId with
        | none => st
        | some grp =>
          let members' := grp.members.erase gid
          if members'.length = 0 then
            { st with groups := aerase st.groups grpId }
          else
            { st with groups := aset st.groups grpId { grp with members := members' } }
    { st1 with guests := aerase st1.guests gid }

/-- `PersonalityStore.createGroup`. -/
def createGroup (env : Env) (leaderId : ℕ) (st : Store) : ℕ × Store :=
  let grpId := st.nextGroupId
  let grp : Group :=
    { id := grpId, leaderId := leaderId, members := [leaderId]
      formation := .follow, targetRide := none, createdTick := env.tick }
  let st1 : Store :=
    { st with nextGroupId := st.nextGroupId + 1, groups := aset st.groups grpId grp }
  match alookup st1.guests leaderId with
  | some p =>
    let p' := { p with social := { p.social with groupId := some grpId, isLeader := true } }
    (grpId, { st1 with guests := aset st1.guests leaderId p' })
  | none => (grpId, st1)

/-- `PersonalityStore.removeFromGroup`: splice out, promote the next member
(array order) when the departing guest was the leader — or delete the group
when nobody remains — then clear the departing guest's social fields. -/
def removeFromGroup (gid : ℕ) (st : Store) : Store :=
  match alookup st.guests gid with
  | none => st
  | some p =>
    match p.social.groupId with
    | none => st
    | some grpId =>
      match alookup st.groups grpId with
      | none => st
      | some grp =>
        let members' := grp.members.erase gid
        let st1 :=
          if grp.leaderId = gid then
            match members' with
            | newLeader :: _ =>
              let grp' := { grp with leaderId := newLeader, members := members' }
              let stg : Store := { st with groups := aset st.groups grpId grp' }
              match alookup stg.guests newLeader with
              | some q =>
                let q' := { q with social := { q.social with isLeader := true } }
                { stg with guests := aset stg.guests newLeader q' }
              | none => stg
            | [] => { st with groups := aerase st.groups grpId }
          else
            { st with groups := aset st.groups grpId { grp with members := members' } }
        match alookup st1.guests gid with
        | some p2 =>
          let p2' := { p2 with social := { p2.social with groupId := none, isLeader := false } }
          { st1 with guests := aset st1.guests gid p2' }
        | none => st1

/-- `PersonalityStore.addToGroup`: fail silently when group or guest is
missing; leave any prior group first; push and set back-references. -/
def addToGroup (gid : ℕ) (grpId : ℕ) (st : Store) : Bool × Store :=
  match alookup st.groups grpId with
  | none => (false, st)
  | some _ =>
    match alookup st.guests gid with
    | none => (false, st)
    | some p =>
      let st1 := if p.social.groupId.isSome then removeFromGroup gid st else st
      match alookup st1.groups grpId, alookup st1.guests gid with
      | some grp, some p' =>
        let grp' := { grp with members := grp.members ++ [gid] }
        let st2 : Store := { st1 with groups := aset st1.groups grpId grp' }
        let p'' := { p' with social := { p'.social with groupId := some grpId, isLeader := false } }
        (true, { st2 with guests := aset st2.guests gid p'' })
      | _, _ => (false, st1)

/-- `PersonalityStore.cleanupOldData`: the host enumeration (everything
inside the `try`) is the `live?` argument; `none` models the enumeration
throwing, in which case the source returns at once.  On success every
stored profile whose id is not live is removed. -/
def cleanupOldData (live? : Option (List ℕ)) (st : Store) : Store :=
  match live? with
  | none => st
  | some live =>
    st.guests.foldl
      (fun s kv => if kv.1 ∈ live then s else removeGuestData kv.1 s) st

end PersonalityStore

namespace MoodSystem

open PersonalityStore

/-- `MoodSystem.calculateMood`: the priority cascade over the guest's
physiological signals, with the social/nervous happiness modifier and the
six-band happiness mapping.  `guest.happiness || 128` maps a zero (falsy)
happiness to 128. -/
def calculateMood (cfg : Config) (env : Env) (g : Guest) (data : Personality) : MoodData :=
  let baseHappiness : ℤ := if g.happiness = 0 then 128 else g.happiness
  let m1 : ℤ :=
    if data.traits.social > 150 then min 20 ((env.nearbyCount g.id : ℤ) * 2) else 0
  let m2 : ℤ :=
    if data.traits.nervous > 150 then min 20 ((env.nearbyCount g.id : ℤ) * 3) else 0
  let happinessModifier : ℤ := m1 - m2
  let ci : MoodState × ℚ :=
    if g.hunger < 50 then (.hungryMood, ((50 + (50 - g.hunger) : ℤ) : ℚ))
    else if g.thirst < 50 then (.thirstyMood, ((50 + (50 - g.thirst) : ℤ) : ℚ))
    else if g.toilet > 200 then (.annoyed, 100 + ((g.toilet : ℚ) - 200) / 2)
    else if g.energy < 40 then (.tired, ((40 + (40 - g.energy) : ℤ) : ℚ))
    else if g.nausea > 150 then (.sick, (g.nausea : ℚ))
    else
      let adjustedHappiness : ℤ := max 0 (min 255 (baseHappiness + happinessModifier))
      if adjustedHappiness > cfg.happyMoodThreshold + 50 then
        (.ecstatic, (adjustedHappiness : ℚ))
      else if adjustedHappiness > cfg.happyMoodThreshold then
        (.happy, (adjustedHappiness : ℚ))
      else if adjustedHappiness > cfg.neutralMoodThreshold then
        (.content, (adjustedHappiness : ℚ))
      else if adjustedHappiness > cfg.sadMoodThreshold then
        (.neutral, (adjustedHappiness : ℚ))
      else if adjustedHappiness > 30 then
        (.sad, ((128 - adjustedHappiness : ℤ) : ℚ))
      else
        (.angry, ((200 - adjustedHappiness : ℤ) : ℚ))
  { current := ci.1, intensity := ci.2, lastChange := data.mood.lastChange }

/-- The per-state happiness nudge of `applyMoodEffects`' `switch`. -/
def moodHappinessAdjust : MoodState → ℤ
  | .ecstatic => 30
  | .happy => 15
  | .excited => 20
  | .bored => -10
  | .annoyed => -15
  | .sad => -20
  | .angry => -30
  | _ => 0

/-- `MoodSystem.applyMoodEffects`: nudge the host guest's long-run
happiness target, clamped, and only written when it moves by more than 5. -/
def applyMoodEffects (cm : Bool) (cfg : Config) (g : Guest) (data : Personality) : Guest :=
  if cm = false then g
  else
    let happinessAdjust : ℤ :=
      round ((moodHappinessAdjust data.mood.current : ℚ) * cfg.moodInfluenceStrength)
    let newTarget : ℤ := max 0 (min 255 (g.happinessTarget + happinessAdjust))
    if |newTarget - g.happinessTarget| > 5 then { g with happinessTarget := newTarget } else g

/-- `MoodSystem.updateMood`: authority-gated; recompute and replace only on
a state change or an intensity jump of more than 10, updating the
last-change tick and the mood-change counter and applying mood effects. -/
def updateMood (cm : Bool) (cfg : Config) (env : Env) (gid : ℕ) (g : Guest)
    (st : Store) : Store × Guest :=
  if cm = false then (st, g)
  else
    let ds := getGuestData env gid st
    let data := ds.1
    let st1 := ds.2
    let newMood := calculateMood cfg env g data
    if newMood.current ≠ data.mood.current ∨ |newMood.intensity - data.mood.intensity| > 10 then
      let data' :=
        { data with
          mood := { newMood with lastChange := env.tick }
          stats := { data.stats with moodChanges := data.stats.moodChanges + 1 } }
      ({ st1 with guests := aset st1.guests gid data' }, applyMoodEffects cm cfg g data')
    else (st1, g)

/-- `PersonalityProcessor.processMoodDecay` for one profile: nudge the
intensity one step toward 128 without overshooting (128 is a fixed point). -/
def decayMoodOnce (m : MoodData) : MoodData :=
  if m.intensity ≠ 128 then
    let decay : ℚ := if m.intensity > 128 then -1 else 1
    { m with intensity := max 0 (min 255 (m.intensity + decay)) }
  else m

end MoodSystem

namespace BehaviorSystem

open PersonalityStore

/-- `BehaviorSystem.calculatePreferredIntensity` (source expression order). -/
def calculatePreferredIntensity (t : Traits) : ℤ :=
  let base : ℚ :=
    5 + ((t.thrillSeeker : ℚ) - 128) / 40 - ((t.nervous : ℚ) - 128) / 50
      + ((t.adventurous : ℚ) - 128) / 80
  let base := if t.romantic > 170 then base - 2 else base
  max 1 (min 15 (round base))

/-- `BehaviorSystem.getWeatherBehavior`: `none` weather models the climate
query (or `hasItem`) throwing, in which case the source catches and
returns null. -/
def getWeatherBehavior (env : Env) (g : Guest) (data : Personality) : Option BehaviorType :=
  match env.weather with
  | none => none
  | some w =>
    if (w = .rain ∨ w = .heavyRain) ∧ g.hasUmbrella = false
        ∧ (data.traits.nervous > 150 ∨ env.rWeather g.id < 3/10) then
      some .seekingShelter
    else if w = .thunder ∧ data.traits.nervous > 100 then
      some .seekingShelter
    else none

/-- `BehaviorSystem.determineBehavior`: the 14-rule priority cascade,
first match wins, `wandering` as default. -/
def determineBehavior (cfg : Config) (env : Env) (g : Guest) (data : Personality) :
    BehaviorType :=
  if g.toilet > 180 then .seekingToilet
  else if g.hunger < 40 ∧ data.traits.hungry > 100 then .seekingFood
  else if g.thirst < 40 then .seekingDrink
  else if g.hunger < 60 then .seekingFood
  else
    (if cfg.weatherReactionsEnabled then getWeatherBehavior env g data else none).getD
    (if g.energy < 30 then .resting
     else if data.social.groupId.isSome ∧ data.social.isLeader = false then .followingGroup
     else if data.social.isLeader then .leadingGroup
     else if data.traits.photographer > 180 ∧ env.rPhoto g.id < 1/10 then .photoTaking
     else if data.traits.collector > 180 ∧ env.rShopping g.id < 1/20 then .shopping
     else if data.traits.social > 170 ∧ env.rSocialize g.id < cfg.groupFormationChance then
       .socializing
     else if data.mood.current = .bored then .seekingRide
     else if data.mood.current = .sad ∧ g.isInPark = true ∧ env.rLeave g.id < 1/10 then
       .leaving
     else if data.traits.thrillSeeker > 150 ∨ data.traits.adventurous > 150 then .seekingRide
     else .wandering)

/-- A priority-ordered rule list (condition, behavior) in the documented
order; used to state that `determineBehavior` is a first-match cascade. -/
def behaviorRules (cfg : Config) (env : Env) (g : Guest) (data : Personality) :
    List (Bool × BehaviorType) :=
  [ (decide (g.toilet > 180), .seekingToilet),
    (decide (g.hunger < 40 ∧ data.traits.hungry > 100), .seekingFood),
    (decide (g.thirst < 40), .seekingDrink),
    (decide (g.hunger < 60), .seekingFood),
    (cfg.weatherReactionsEnabled && (getWeatherBehavior env g data).isSome, .seekingShelter),
    (decide (g.energy < 30), .resting),
    (decide (data.social.groupId.isSome ∧ data.social.isLeader = false), .followingGroup),
    (data.social.isLeader, .leadingGroup),
    (decide (data.traits.photographer > 180 ∧ env.rPhoto g.id < 1/10), .photoTaking),
    (decide (data.traits.collector > 180 ∧ env.rShopping g.id < 1/20), .shopping),
    (decide (data.traits.social > 170 ∧ env.rSocialize g.id < cfg.groupFormationChance),
      .socializing),
    (decide (data.mood.current = .bored), .seekingRide),
    (decide (data.mood.current = .sad ∧ g.isInPark = true ∧ env.rLeave g.id < 1/10), .leaving),
    (decide (data.traits.thrillSeeker > 150 ∨ data.traits.adventurous > 150), .seekingRide) ]

/-- First matching rule of a priority-ordered rule list; `wandering` if none
matches. -/
def firstMatch : List (Bool × BehaviorType) → BehaviorType
  | [] => .wandering
  | (c, b) :: rest => if c then b else firstMatch rest

end BehaviorSystem

namespace BehaviorSystem

open PersonalityStore

/-- `BehaviorSystem.handleSeekingRide`: store the preferred ride intensity
as the behavior target of the stored profile. -/
def handleSeekingRide (cfg : Config) (gid : ℕ) (data : Personality) (st : Store) : Store :=
  if cfg.ridePreferencesEnabled = false then st
  else
    let data' := { data with behavior := { data.behavior with
      target := some { preferredIntensity := calculatePreferredIntensity data.traits } } }
    { st with guests := aset st.guests gid data' }

/-- `BehaviorSystem.findNearbyGuestsForSocializing`: scan the host-reported
nearby guest ids (`Env.scan`, `[]` when the spatial query throws), skip the
scanning guest itself, fetch-or-create each candidate's profile, and keep
those whose social trait exceeds 100. -/
def findNearbyGuestsForSocializing (env : Env) (g : Guest) (st : Store) :
    List ℕ × Store :=
  (env.scan g.id).foldl
    (fun acc oid =>
      if oid = g.id then acc
      else
        let ds := getGuestData env oid acc.2
        if ds.1.traits.social > 100 then (acc.1 ++ [oid], ds.2) else (acc.1, ds.2))
    ([], st)

/-- The loop in `handleSocializing` that finds the first nearby guest that
already belongs to a group. -/
def findExistingGroup (env : Env) : List ℕ → Store → Option ℕ × Store
  | [], st => (none, st)
  | oid :: rest, st =>
    let ds := getGuestData env oid st
    match ds.1.social.groupId with
    | some grpId => (some grpId, ds.2)
    | none => findExistingGroup env rest ds.2

/-- Bump `data.stats.socialInteractions` on the stored profile. -/
def bumpSocialInteractions (gid : ℕ) (st : Store) : Store :=
  match alookup st.guests gid with
  | some p =>
    let p' := { p with stats := { p.stats with
      socialInteractions := p.stats.socialInteractions + 1 } }
    { st with guests := aset st.guests gid p' }
  | none => st

/-- `BehaviorSystem.handleSocializing`: ungrouped guests join a nearby
existing group of size < 6, or seed a new group with the first candidate.
A dangling group reference makes the source throw on `.members`, caught by
`executeBehavior`'s try — modelled as leaving the store unchanged. -/
def handleSocializing (cfg : Config) (env : Env) (g : Guest) (data : Personality)
    (st : Store) : Store :=
  if cfg.socialBehaviorEnabled = false then st
  else
    match data.social.groupId with
    | some _ => st
    | none =>
      let ns := findNearbyGuestsForSocializing env g st
      match ns.1 with
      | [] => ns.2
      | first :: _ =>
        let es := findExistingGroup env ns.1 ns.2
        match es.1 with
        | some grpId =>
          match alookup es.2.groups grpId with
          | some grp =>
            if grp.members.length < 6 then
              bumpSocialInteractions g.id (addToGroup g.id grpId es.2).2
            else es.2
          | none => es.2
        | none =>
          let cs := createGroup env g.id es.2
          bumpSocialInteractions g.id (addToGroup first cs.1 cs.2).2

/-- `BehaviorSystem.executeBehavior`: the one-time side effect fired on a
behavior transition. -/
def executeBehavior (cm : Bool) (cfg : Config) (env : Env) (g : Guest) (gid : ℕ)
    (data : Personality) (st : Store) : Store × Guest :=
  if cm = false then (st, g)
  else
    match data.behavior.current with
    | .seekingRide => (handleSeekingRide cfg gid data st, g)
    | .socializing => (handleSocializing cfg env g data st, g)
    | .resting =>
      (st, if g.energy < 30 then { g with energyTarget := min 255 (g.energy + 20) } else g)
    | .photoTaking => (st, { g with happinessTarget := min 255 (g.happinessTarget + 10) })
    | _ => (st, g)

/-- `BehaviorSystem.updateBehavior`: authority-gated; on a transition reset
the start tick, count the change, and fire the side effect. -/
def updateBehavior (cm : Bool) (cfg : Config) (env : Env) (gid : ℕ) (g : Guest)
    (st : Store) : Store × Guest :=
  if cm = false then (st, g)
  else
    let ds := getGuestData env gid st
    let data := ds.1
    let st1 := ds.2
    let newBehavior := determineBehavior cfg env g data
    if newBehavior ≠ data.behavior.current then
      let data' :=
        { data with
          behavior := { data.behavior with current := newBehavior, startTick := env.tick }
          stats := { data.stats with behaviorsChanged := data.stats.behaviorsChanged + 1 } }
      executeBehavior cm cfg env g gid data' { st1 with guests := aset st1.guests gid data' }
    else (st1, g)

end BehaviorSystem

namespace RidePreferenceSystem

open PersonalityStore

/-- `RidePreferenceSystem.recordRideExperience`: bump the per-ride count and
cumulative satisfaction, then reclassify favorite (strictly above 0.8
average after at least 2 rides) and worst (below 0.3 average after at least
1 ride), each an overwrite.  No authority check in the source. -/
def recordRideExperience (env : Env) (gid rid : ℕ) (satisfaction : ℚ) (st : Store) : Store :=
  let ds := getGuestData env gid st
  let data := ds.1
  let st1 := ds.2
  let m := (alookup data.memory.ridesRidden rid).getD { timesRidden := 0, totalSatisfaction := 0 }
  let m' : RideMemory :=
    { timesRidden := m.timesRidden + 1, totalSatisfaction := m.totalSatisfaction + satisfaction }
  let avgSatisfaction : ℚ := m'.totalSatisfaction / (m'.timesRidden : ℚ)
  let fav := if avgSatisfaction > 4/5 ∧ m'.timesRidden ≥ 2 then some rid
             else data.memory.favoriteRide
  let worst := if avgSatisfaction < 3/10 ∧ m'.timesRidden ≥ 1 then some rid
               else data.memory.worstExperience
  let data' := { data with memory := { data.memory with
    ridesRidden := aset data.memory.ridesRidden rid m'
    favoriteRide := fav
    worstExperience := worst } }
  { st1 with guests := aset st1.guests gid data' }

end RidePreferenceSystem

namespace SocialSystem

open PersonalityStore

/-- `SocialSystem.dissolveGroup`: detach every member (snapshot of the
member array), then delete the group record. -/
def dissolveGroup (grpId : ℕ) (st : Store) : Store :=
  match alookup st.groups grpId with
  | none => st
  | some grp =>
    let st1 := grp.members.foldl (fun s m => removeFromGroup m s) st
    { st1 with groups := aerase st1.groups grpId }

/-- `Math.floor(v / 32)`: pixel coordinate to tile coordinate. -/
def tileOf (v : ℤ) : ℤ := Int.fdiv v 32

/-- `SocialSystem.updateGroup`: dissolve groups of size < 2 or with an
unresolvable leader; otherwise collect members to evict (unresolvable ones
unconditionally, stragglers beyond Manhattan tile distance 15 with
probability 0.1) and detach them. -/
def updateGroup (env : Env) (grpId : ℕ) (st : Store) : Store :=
  match alookup st.groups grpId with
  | none => st
  | some grp =>
    if grp.members.length < 2 then dissolveGroup grpId st
    else
      match env.resolve grp.leaderId with
      | none => dissolveGroup grpId st
      | some lpos =>
        let membersToRemove := grp.members.filter fun m =>
          if m = grp.leaderId then false
          else
            match env.resolve m with
            | none => true
            | some mpos =>
              decide ((tileOf mpos.1 - tileOf lpos.1).natAbs
                  + (tileOf mpos.2 - tileOf lpos.2).natAbs > 15 ∧ env.evictDraw m < 1/10)
        membersToRemove.foldl (fun s m => removeFromGroup m s) st

/-- `SocialSystem.updateGroups`: authority-gated pass over all groups. -/
def updateGroups (cm : Bool) (env : Env) (st : Store) : Store :=
  if cm = false then st
  else (st.groups.map Prod.fst).foldl (fun s gid => updateGroup env gid s) st

end SocialSystem

namespace PersonalityProcessor

open PersonalityStore MoodSystem BehaviorSystem

/-- `PersonalityProcessor.processGuest`: ensure the profile exists, update
mood then behavior, then refresh the time-in-park counter. -/
def processGuest (cm : Bool) (cfg : Config) (env : Env) (g : Guest) (st : Store) : Store :=
  let st0 := if hasGuestData g.id st then st else (getGuestData env g.id st).2
  let mg := updateMood cm cfg env g.id g st0
  let bg := updateBehavior cm cfg env g.id mg.2 mg.1
  match alookup bg.1.guests g.id with
  | some data =>
    let data' := { data with memory := { data.memory with
      timeInPark := env.tick - data.createdTick } }
    { bg.1 with guests := aset bg.1.guests g.id data' }
  | none => bg.1

/-- Result of one fast-cadence pass: final store, round-robin cursor,
`statistics.guestsProcessed` increments of the pass, and the loop's own
`processed` counter. -/
structure PassResult where
  store : Store
  guestIndex : ℕ
  statProcessed : ℕ
  processedCounter : ℕ
deriving DecidableEq

/-- The `while` loop of `processGuests`.  `elapsed k` is the wall-clock
milliseconds `PerformanceMonitor.getElapsedMs()` reports at the `k`-th
guard check.  The loop guard is `processed < CONFIG.maxGuestsPerTick` and
not over budget; one entry is examined per iteration; a valid entry is
processed and bumps `processed` twice (once inside the `try`, once after
it), an invalid entry bumps it once.  `fuel` only bounds the recursion and
is chosen at the call site strictly larger than the number of iterations
the guard permits, so it never alters the result. -/
def processLoop (cm : Bool) (cfg : Config) (env : Env) (elapsed : ℕ → ℚ)
    (guests : List (Option Guest)) (n : ℕ) :
    ℕ → ℕ → ℕ → ℕ → ℕ → Store → PassResult
  | 0, _, processed, statP, gIdx, st =>
    { store := st, guestIndex := gIdx, statProcessed := statP, processedCounter := processed }
  | fuel + 1, k, processed, statP, gIdx, st =>
    if processed < cfg.maxGuestsPerTick ∧ elapsed k < cfg.frameBudgetMs then
      let entry := (guests.get? (gIdx % n)).join
      let gIdx' := (gIdx + 1) % n
      match entry with
      | some g =>
        let st' := processGuest cm cfg env g st
        processLoop cm cfg env elapsed guests n fuel (k + 1) (processed + 1 + 1) (statP + 1)
          gIdx' st'
      | none =>
        processLoop cm cfg env elapsed guests n fuel (k + 1) (processed + 1) statP gIdx' st
    else
      { store := st, guestIndex := gIdx, statProcessed := statP, processedCounter := processed }

/-- `PersonalityProcessor.processGuests`: one fast-cadence pass.  The host
guest enumeration is `guests?` (`none` = the enumeration threw); list
entries that are `none` model entries failing the
`guest && guest.type === 'guest' && guest.id !== null` validity check. -/
def processGuests (cm : Bool) (cfg : Config) (env : Env) (elapsed : ℕ → ℚ)
    (guests? : Option (List (Option Guest))) (gIdx : ℕ) (st : Store) : PassResult :=
  match guests? with
  | none => { store := st, guestIndex := gIdx, statProcessed := 0, processedCounter := 0 }
  | some guests =>
    if guests.isEmpty then
      { store := st, guestIndex := gIdx, statProcessed := 0, processedCounter := 0 }
    else
      processLoop cm cfg env elapsed guests guests.length (cfg.maxGuestsPerTick + 1)
        0 0 0 gIdx st

end PersonalityProcessor

/-- The preferred-ride-intensity formula exactly as the spec words it:
`clamp(round(5 + (thrillSeeking−128)/40 − (nervous−128)/50 +
(adventurous−128)/80 − 2·[romantic>170]), 1, 15)`; stated separately from
the source translation so the two can be compared. -/
def specPreferredIntensity (t : Traits) : ℤ :=
  max 1 (min 15 (round ((5 : ℚ) + ((t.thrillSeeker : ℚ) - 128) / 40
    - ((t.nervous : ℚ) - 128) / 50 + ((t.adventurous : ℚ) - 128) / 80
    - 2 * (if t.romantic > 170 then 1 else 0))))

/-- The empty store (`PersonalityStore.clear`'s result). -/
def stEmpty : Store := { guests := [], groups := [], nextGroupId := 1 }

/-- A freshly generated profile with its social record overridden. -/
def profileWith (gid : ℕ) (s : SocialData) : Personality :=
  { PersonalityStore.createNewPersonality envDefault gid with social := s }

/-- A store holding guests 0 and 1 in group 1, guest 0 being the leader. -/
def stPair : Store :=
  { guests :=
      [ (0, profileWith 0 { groupId := some 1, isLeader := true
                            friendIds := [], recentInteractions := 0 }),
        (1, profileWith 1 { groupId := some 1, isLeader := false
                            friendIds := [], recentInteractions := 0 }) ]
    groups :=
      [ (1, { id := 1, leaderId := 0, members := [0, 1], formation := .follow
              targetRide := none, createdTick := 0 }) ]
    nextGroupId := 2 }

/-- The trait vector of the spec's preferred-intensity scenario
(`thrillSeeking=200, nervous=30, adventurous=180, romantic=50`), other
traits mid-range. -/
def tScenario : Traits :=
  { thrillSeeker := 200, social := 128, patient := 128, frugal := 128
    hungry := 128, adventurous := 180, nervous := 30, energetic := 128
    romantic := 50, foodie := 128, collector := 128, photographer := 128 }

/-- A minimal valid host guest entity with the given id. -/
def guestValid (i : ℕ) : Guest :=
  { id := i, hunger := 0, thirst := 0, toilet := 0, energy := 0, nausea := 0
    happiness := 0, happinessTarget := 0, energyTarget := 0, isInPark := false
    hasUmbrella := false, x := 0, y := 0 }

/-- Five valid guest entries, as the host enumeration would report them. -/
def guestsFive : List (Option Guest) :=
  [some (guestValid 0), some (guestValid 1), some (guestValid 2),
   some (guestValid 3), some (guestValid 4)]

/-- A guest whose signals put the mood cascade in its default band
(content at intensity 128 for mid-range traits). -/
def guestCalm : Guest :=
  { id := 0, hunger := 200, thirst := 200, toilet := 100, energy := 200, nausea := 0
    happiness := 128, happinessTarget := 128, energyTarget := 128, isInPark := true
    hasUmbrella := false, x := 0, y := 0 }

/-- A store holding only the freshly generated profile of guest 0. -/
def stSingle : Store :=
  { guests := [(0, PersonalityStore.createNewPersonality envDefault 0)]
    groups := [], nextGroupId := 1 }

/-- The behavior-scenario inputs: a guest with hunger signal 30 and a
profile whose hungry trait is 150. -/
def guestHungry : Guest :=
  { id := 0, hunger := 30, thirst := 200, toilet := 100, energy := 200, nausea := 0
    happiness := 128, happinessTarget := 128, energyTarget := 128, isInPark := true
    hasUmbrella := false, x := 0, y := 0 }

/-- A profile whose hungry trait is 150, other traits mid-range. -/
def dataHungry : Personality :=
  let p := PersonalityStore.createNewPersonality envDefault 0
  { p with traits := { p.traits with hungry := 150 } }

/-- The store obtained by recording the same ride twice with satisfaction
exactly 0.8 for guest 0 (starting from an empty store). -/
def stTwoRides : Store :=
  RidePreferenceSystem.recordRideExperience envDefault 0 3 (4/5)
    (RidePreferenceSystem.recordRideExperience envDefault 0 3 (4/5) stEmpty)

/-- The profile `updateMood` stores when it replaces the mood: the
recomputed mood with the last-change tick set to now, and the mood-change
counter bumped (proof abbreviation for `updateMood`'s then-branch). -/
def replacedProfile (cfg : Config) (env : Env) (g : Guest) (p : Personality) : Personality :=
  { p with
    mood := { MoodSystem.calculateMood cfg env g p with lastChange := env.tick }
    stats := { p.stats with moodChanges := p.stats.moodChanges + 1 } }

/-- The store after `getGuestData` lazily created a profile (proof
abbreviation). -/
def storeWithCreated (env : Env) (gid : ℕ) (st : Store) : Store :=
  { st with guests := aset st.guests gid (PersonalityStore.createNewPersonality env gid) }

/-- The profile `recordRideExperience` stores: the bumped per-ride record
and the reclassified favorite/worst labels (proof abbreviation for the
function's update). -/
def recordedProfile (rid : ℕ) (s : ℚ) (p : Personality) : Personality :=
  let m := (alookup p.memory.ridesRidden rid).getD { timesRidden := 0, totalSatisfaction := 0 }
  let m' : RideMemory :=
    { timesRidden := m.timesRidden + 1, totalSatisfaction := m.totalSatisfaction + s }
  let avg := m'.totalSatisfaction / (m'.timesRidden : ℚ)
  { p with memory := { p.memory with
      ridesRidden := aset p.memory.ridesRidden rid m'
      favoriteRide :=
        if avg > 4/5 ∧ m'.timesRidden ≥ 2 then some rid else p.memory.favoriteRide
      worstExperience :=
        if avg < 3/10 ∧ m'.timesRidden ≥ 1 then some rid else p.memory.worstExperience } }

theorem alookup_aset_self {α : Type} (l : List (ℕ × α)) (k : ℕ) (v : α) :
    alookup (aset l k v) k = some v := by
  induction l with
  | nil => simp [aset, alookup]
  | cons kv rest ih =>
    obtain ⟨k', v'⟩ := kv
    by_cases h : k = k'
    · simp [aset, h, alookup]
    · simp [aset, h, alookup, ih]

theorem alookup_aset_ne {α : Type} (l : List (ℕ × α)) (k k' : ℕ) (v : α)
    (h : k' ≠ k) : alookup (aset l k v) k' = alookup l k' := by
  induction l with
  | nil => simp [aset, alookup, h]
  | cons kv rest ih =>
    obtain ⟨k1, v1⟩ := kv
    by_cases hk : k = k1
    · subst hk
      simp [aset, alookup, h]
    · simp only [aset, if_neg hk]
      by_cases hk' : k' = k1
      · simp [alookup, hk']
      · simp [alookup, hk', ih]

theorem alookup_aerase_self {α : Type} (l : List (ℕ × α)) (k : ℕ) :
    alookup (aerase l k) k = none := by
  induction l with
  | nil => simp [aerase, alookup]
  | cons kv rest ih =>
    obtain ⟨k1, v1⟩ := kv
    by_cases h : k1 = k
    · simpa [aerase, h] using ih
    · simpa [aerase, h, alookup, Ne.symm h] using ih

/-- Claim C10: if the host's live-guest enumeration throws during the
cleanup/reconciliation pass, `cleanupOldData` returns immediately and the
profile table and group table are left completely unchanged. -/
theorem cleanupOldData_noop_on_host_failure :
    ∀ st : Store, PersonalityStore.cleanupOldData none st = st := by
  intro st
  rfl

/-- Claim C6: every generated trait vector has all 12 named traits with
integer values in `[0,255]`, and the derived modifiers equal exactly the
documented formulas. -/
theorem createNewPersonality_traits_and_modifiers :
    ∀ (env : Env) (gid : ℕ),
      (0 ≤ (PersonalityStore.createNewPersonality env gid).traits.thrillSeeker
        ∧ (PersonalityStore.createNewPersonality env gid).traits.thrillSeeker ≤ 255) ∧
      (0 ≤ (PersonalityStore.createNewPersonality env gid).traits.social
        ∧ (PersonalityStore.createNewPersonality env gid).traits.social ≤ 255) ∧
      (0 ≤ (PersonalityStore.createNewPersonality env gid).traits.patient
        ∧ (PersonalityStore.createNewPersonality env gid).traits.patient ≤ 255) ∧
      (0 ≤ (PersonalityStore.createNewPersonality env gid).traits.frugal
        ∧ (PersonalityStore.createNewPersonality env gid).traits.frugal ≤ 255) ∧
      (0 ≤ (PersonalityStore.createNewPersonality env gid).traits.hungry
        ∧ (PersonalityStore.createNewPersonality env gid).traits.hungry ≤ 255) ∧
      (0 ≤ (PersonalityStore.createNewPersonality env gid).traits.adventurous
        ∧ (PersonalityStore.createNewPersonality env gid).traits.adventurous ≤ 255) ∧
      (0 ≤ (PersonalityStore.createNewPersonality env gid).traits.nervous
        ∧ (PersonalityStore.createNewPersonality env gid).traits.nervous ≤ 255) ∧
      (0 ≤ (PersonalityStore.createNewPersonality env gid).traits.energetic
        ∧ (PersonalityStore.createNewPersonality env gid).traits.energetic ≤ 255) ∧
      (0 ≤ (PersonalityStore.createNewPersonality env gid).traits.romantic
        ∧ (PersonalityStore.createNewPersonality env gid).traits.romantic ≤ 255) ∧
      (0 ≤ (PersonalityStore.createNewPersonality env gid).traits.foodie
        ∧ (PersonalityStore.createNewPersonality env gid).traits.foodie ≤ 255) ∧
      (0 ≤ (PersonalityStore.createNewPersonality env gid).traits.collector
        ∧ (PersonalityStore.createNewPersonality env gid).traits.collector ≤ 255) ∧
      (0 ≤ (PersonalityStore.createNewPersonality env gid).traits.photographer
        ∧ (PersonalityStore.createNewPersonality env gid).traits.photographer ≤ 255) ∧
      (PersonalityStore.createNewPersonality env gid).modifiers.energyDrain
        = 1 - (((PersonalityStore.createNewPersonality env gid).traits.energetic : ℚ) - 128) / 512 ∧
      (PersonalityStore.createNewPersonality env gid).modifiers.hungerRate
        = 4/5 + (((PersonalityStore.createNewPersonality env gid).traits.hungry : ℚ) / 255) * (2/5) ∧
      (PersonalityStore.createNewPersonality env gid).modifiers.thirstRate
        = 4/5 + (((PersonalityStore.createNewPersonality env gid).traits.energetic : ℚ) / 255) * (2/5) ∧
      (PersonalityStore.createNewPersonality env gid).modifiers.spendingMultiplier
        = 3/2 - ((PersonalityStore.createNewPersonality env gid).traits.frugal : ℚ) / 255 := by
  intro env gid
  have hb : ∀ v : ℤ, 0 ≤ PersonalityStore.clampTrait v ∧ PersonalityStore.clampTrait v ≤ 255 := by
    intro v
    unfold PersonalityStore.clampTrait
    omega
  refine ⟨hb _, hb _, hb _, hb _, hb _, hb _, hb _, hb _, hb _, hb _, hb _, hb _,
    rfl, rfl, rfl, rfl⟩

/-- Claim C8: the stored preferred ride intensity equals the documented
clamped-round formula for every trait vector, hence always lies in
`[1,15]`; and on the scenario trait vector
(`thrillSeeking=200, nervous=30, adventurous=180, romantic=50`) it
evaluates to that formula's value, 9. -/
theorem calculatePreferredIntensity_spec :
    (∀ t : Traits,
      BehaviorSystem.calculatePreferredIntensity t = specPreferredIntensity t ∧
      1 ≤ BehaviorSystem.calculatePreferredIntensity t ∧
      BehaviorSystem.calculatePreferredIntensity t ≤ 15) ∧
    BehaviorSystem.calculatePreferredIntensity tScenario = 9 := by
  constructor
  · intro t
    refine ⟨?_, ?_, ?_⟩
    · unfold BehaviorSystem.calculatePreferredIntensity specPreferredIntensity
      by_cases h : t.romantic > 170
      · simp only [if_pos h]
        norm_num
      · simp only [if_neg h]
        norm_num
    · exact le_max_left 1 _
    · exact max_le (by norm_num) (min_le_left _ _)
  · norm_num [BehaviorSystem.calculatePreferredIntensity, tScenario, round_eq]

/-- Claim C1 (failing input): `removeGuestData` on the stored leader of a
two-member group leaves the group in the store with the removed agent still
recorded as leader — the leader is neither promoted from the remaining
members nor is the group dissolved, so the leader-membership invariant is
broken. -/
theorem removeGuestData_leader_not_promoted :
    (alookup (PersonalityStore.removeGuestData 0 stPair).groups 1).map Group.leaderId
      = some 0 ∧
    (alookup (PersonalityStore.removeGuestData 0 stPair).groups 1).map Group.members
      = some [1] ∧
    alookup (PersonalityStore.removeGuestData 0 stPair).guests 0 = none ∧
    (alookup (PersonalityStore.removeGuestData 0 stPair).guests 1).map
      (fun p => p.social.isLeader) = some false := by
  exact ⟨rfl, rfl, rfl, rfl⟩

/-- Claim C2 (counterexample): removing the leader of a two-member group
via `removeFromGroup` leaves the group (now of size 1) in the store, so the
claim that a group with exactly one member after removal no longer exists
is false. -/
theorem removeFromGroup_singleton_group_persists :
    (alookup (PersonalityStore.removeFromGroup 0 stPair).groups 1).isSome = true ∧
    (alookup (PersonalityStore.removeFromGroup 0 stPair).groups 1).map Group.members
      = some [1] := by
  exact ⟨rfl, rfl⟩

/-- Claim C3 (counterexample): the store's get operation and the ride-memory
recorder consult no authority check at all — on any participant they create
a profile on first access, so an attempted mutation while not authoritative
is not a no-op on the shared tables. -/
theorem store_writes_ignore_authority :
    (PersonalityStore.getGuestData envDefault 7 stEmpty).2 ≠ stEmpty ∧
    RidePreferenceSystem.recordRideExperience envDefault 7 0 (1/2) stEmpty ≠ stEmpty := by
  constructor
  · intro h
    have hl : (PersonalityStore.getGuestData envDefault 7 stEmpty).2.guests.length
        = stEmpty.guests.length := by rw [h]
    simp [PersonalityStore.getGuestData, stEmpty, alookup, aset] at hl
  · intro h
    have hl : (RidePreferenceSystem.recordRideExperience envDefault 7 0 (1/2)
        stEmpty).guests.length = stEmpty.guests.length := by rw [h]
    simp [RidePreferenceSystem.recordRideExperience, PersonalityStore.getGuestData,
      stEmpty, alookup, aset] at hl

/-- Claim C3 (amended): the mood, behavior and social engine entry points
are authority-gated silent no-ops when the participant may not modify game
state; the profile store itself is not gated. -/
theorem engine_entry_points_noop_when_not_authoritative :
    ∀ (cfg : Config) (env : Env) (gid : ℕ) (g : Guest) (data : Personality) (st : Store),
      MoodSystem.updateMood false cfg env gid g st = (st, g) ∧
      BehaviorSystem.updateBehavior false cfg env gid g st = (st, g) ∧
      BehaviorSystem.executeBehavior false cfg env g gid data st = (st, g) ∧
      MoodSystem.applyMoodEffects false cfg g data = g ∧
      SocialSystem.updateGroups false env st = st := by
  intro cfg env gid g data st
  exact ⟨rfl, rfl, rfl, rfl, rfl⟩

/-- Claim C5 (counterexample): recording satisfaction exactly 0.8 twice for
the same ride yields an average of exactly 0.8 over 2 rides, which meets
the claim's "average ≥ 0.8 after ≥ 2 rides" condition, yet the ride does
not become the favorite (the source tests strictly greater than 0.8). -/
theorem recordRideExperience_boundary_not_favorite :
    ((alookup stTwoRides.guests 0).bind fun p => alookup p.memory.ridesRidden 3)
      = some { timesRidden := 2, totalSatisfaction := 8/5 } ∧
    ((8 : ℚ)/5) / 2 ≥ 4/5 ∧
    (alookup stTwoRides.guests 0).map (fun p => p.memory.favoriteRide) = some none := by
  refine ⟨?_, by norm_num, ?_⟩ <;>
    norm_num [stTwoRides, RidePreferenceSystem.recordRideExperience,
      PersonalityStore.getGuestData, PersonalityStore.createNewPersonality,
      stEmpty, alookup, aset, PersonalityStore.clampTrait,
      PersonalityStore.calculateModifiers, envDefault]

set_option maxHeartbeats 4000000 in
set_option maxRecDepth 16000 in
/-- Claim C9 (failing input): a fast-cadence pass over five valid guests
with agent cap 5 and a permanently zero wall clock processes only 3 agents
and stops, because the loop counter is bumped twice per processed agent —
the pass ends although neither the agent cap was reached by agents
processed (3 < 5) nor the frame budget was exceeded (elapsed 0 < 2.5 ms
throughout). -/
theorem processGuests_stops_before_cap :
    (PersonalityProcessor.processGuests true cfgDefault envDefault (fun _ => 0)
        (some guestsFive) 0 stEmpty).statProcessed = 3 ∧
    (PersonalityProcessor.processGuests true cfgDefault envDefault (fun _ => 0)
        (some guestsFive) 0 stEmpty).processedCounter = 6 ∧
    (3 : ℕ) < cfgDefault.maxGuestsPerTick ∧
    (0 : ℚ) < cfgDefault.frameBudgetMs := by
  refine ⟨?_, ?_, by norm_num [cfgDefault], by norm_num [cfgDefault]⟩ <;>
    norm_num [PersonalityProcessor.processGuests, PersonalityProcessor.processLoop,
      PersonalityProcessor.processGuest, PersonalityStore.hasGuestData,
      MoodSystem.updateMood, BehaviorSystem.updateBehavior,
      BehaviorSystem.executeBehavior, BehaviorSystem.determineBehavior,
      BehaviorSystem.getWeatherBehavior, MoodSystem.calculateMood,
      MoodSystem.applyMoodEffects, MoodSystem.moodHappinessAdjust,
      PersonalityStore.getGuestData, PersonalityStore.createNewPersonality,
      PersonalityStore.calculateModifiers, PersonalityStore.clampTrait,
      alookup, aset, envDefault, cfgDefault, guestsFive, guestValid, stEmpty, round_eq]

theorem firstMatch_decide_cons (c : Prop) [Decidable c] (b : BehaviorType)
    (rest : List (Bool × BehaviorType)) :
    BehaviorSystem.firstMatch ((decide c, b) :: rest)
      = if c then b else BehaviorSystem.firstMatch rest := by
  by_cases h : c <;> simp [BehaviorSystem.firstMatch, h]

theorem firstMatch_bool_cons (c : Bool) (b : BehaviorType)
    (rest : List (Bool × BehaviorType)) :
    BehaviorSystem.firstMatch ((c, b) :: rest)
      = if c = true then b else BehaviorSystem.firstMatch rest := by
  cases c <;> simp [BehaviorSystem.firstMatch]

theorem getWeatherBehavior_shelter (env : Env) (g : Guest) (data : Personality)
    (b : BehaviorType) (h : BehaviorSystem.getWeatherBehavior env g data = some b) :
    b = .seekingShelter := by
  unfold BehaviorSystem.getWeatherBehavior at h
  match hw : env.weather with
  | none => rw [hw] at h; exact absurd h (by simp)
  | some w =>
    rw [hw] at h
    simp only [] at h
    split_ifs at h with h1 h2
    · exact (Option.some_inj.mp h).symm
    · exact (Option.some_inj.mp h).symm

/-- Claim C4: for all fixed inputs (signals, traits, mood, weather, group
state and random draws) the behavior engine returns the first matching rule
of the 14-rule priority cascade (so no lower-priority rule's result is
returned while a higher-priority condition holds); and an agent with hunger
signal 30, hungry trait 150 and restroom-need at most 180 always gets
Seeking-food, regardless of mood and weather. -/
theorem determineBehavior_first_match_cascade :
    (∀ (cfg : Config) (env : Env) (g : Guest) (data : Personality),
        BehaviorSystem.determineBehavior cfg env g data
          = BehaviorSystem.firstMatch (BehaviorSystem.behaviorRules cfg env g data)) ∧
    (∀ (cfg : Config) (env : Env) (g : Guest) (data : Personality),
        g.hunger = 30 → data.traits.hungry = 150 → g.toilet ≤ 180 →
        BehaviorSystem.determineBehavior cfg env g data = .seekingFood) := by
  constructor
  · intro cfg env g data
    simp only [BehaviorSystem.determineBehavior, BehaviorSystem.behaviorRules,
      firstMatch_decide_cons, firstMatch_bool_cons, BehaviorSystem.firstMatch]
    by_cases hw : cfg.weatherReactionsEnabled
    · cases hgw : BehaviorSystem.getWeatherBehavior env g data with
      | none => simp [hw, hgw]
      | some b =>
        have hb := getWeatherBehavior_shelter env g data b hgw
        simp [hw, hgw, hb]
    · simp [hw]
  · intro cfg env g data h30 h150 htoilet
    unfold BehaviorSystem.determineBehavior
    rw [if_neg (by omega), if_pos (by omega)]

/-- Witness for C4: the scenario instantiated at a concrete guest, profile,
configuration and environment. -/
theorem determineBehavior_first_match_cascade_witness :
    BehaviorSystem.determineBehavior cfgDefault envDefault guestHungry dataHungry
      = .seekingFood :=
  determineBehavior_first_match_cascade.2 cfgDefault envDefault guestHungry dataHungry
    rfl rfl (by decide)

theorem applyMoodEffects_preserves (cm : Bool) (cfg : Config) (g : Guest) (d : Personality) :
    (MoodSystem.applyMoodEffects cm cfg g d).id = g.id ∧
    (MoodSystem.applyMoodEffects cm cfg g d).happiness = g.happiness ∧
    (MoodSystem.applyMoodEffects cm cfg g d).hunger = g.hunger ∧
    (MoodSystem.applyMoodEffects cm cfg g d).thirst = g.thirst ∧
    (MoodSystem.applyMoodEffects cm cfg g d).toilet = g.toilet ∧
    (MoodSystem.applyMoodEffects cm cfg g d).energy = g.energy ∧
    (MoodSystem.applyMoodEffects cm cfg g d).nausea = g.nausea := by
  simp only [MoodSystem.applyMoodEffects]
  split_ifs <;> exact ⟨rfl, rfl, rfl, rfl, rfl, rfl, rfl⟩

theorem calculateMood_congr (cfg : Config) (env : Env) (g g' : Guest) (d d' : Personality)
    (hid : g'.id = g.id) (hh : g'.happiness = g.happiness) (hhu : g'.hunger = g.hunger)
    (hth : g'.thirst = g.thirst) (hto : g'.toilet = g.toilet) (hen : g'.energy = g.energy)
    (hna : g'.nausea = g.nausea) (htr : d'.traits = d.traits) :
    (MoodSystem.calculateMood cfg env g' d').current
      = (MoodSystem.calculateMood cfg env g d).current ∧
    (MoodSystem.calculateMood cfg env g' d').intensity
      = (MoodSystem.calculateMood cfg env g d).intensity := by
  unfold MoodSystem.calculateMood
  rw [hid, hh, hhu, hth, hto, hen, hna, htr]
  exact ⟨rfl, rfl⟩

theorem updateMood_of_present_noop (cfg : Config) (env : Env) (gid : ℕ) (g : Guest)
    (st : Store) (p : Personality) (h : alookup st.guests gid = some p)
    (hcur : (MoodSystem.calculateMood cfg env g p).current = p.mood.current)
    (hint : |(MoodSystem.calculateMood cfg env g p).intensity - p.mood.intensity| ≤ 10) :
    MoodSystem.updateMood true cfg env gid g st = (st, g) := by
  have hneg : ¬((MoodSystem.calculateMood cfg env g p).current ≠ p.mood.current ∨
      |(MoodSystem.calculateMood cfg env g p).intensity - p.mood.intensity| > 10) := by
    push_neg
    exact ⟨hcur, hint⟩
  simp only [MoodSystem.updateMood, PersonalityStore.getGuestData, h]
  rw [if_neg hneg]
  rfl

theorem updateMood_of_present_replace (cfg : Config) (env : Env) (gid : ℕ) (g : Guest)
    (st : Store) (p : Personality) (h : alookup st.guests gid = some p)
    (hc : (MoodSystem.calculateMood cfg env g p).current ≠ p.mood.current ∨
          |(MoodSystem.calculateMood cfg env g p).intensity - p.mood.intensity| > 10) :
    MoodSystem.updateMood true cfg env gid g st =
      ({ st with guests := aset st.guests gid (replacedProfile cfg env g p) },
       MoodSystem.applyMoodEffects true cfg g (replacedProfile cfg env g p)) := by
  simp only [MoodSystem.updateMood, PersonalityStore.getGuestData, h]
  rw [if_pos hc]
  rfl

theorem updateMood_of_absent (cfg : Config) (env : Env) (gid : ℕ) (g : Guest)
    (st : Store) (h : alookup st.guests gid = none) :
    MoodSystem.updateMood true cfg env gid g st =
      MoodSystem.updateMood true cfg env gid g (storeWithCreated env gid st) := by
  have h2 : alookup (aset st.guests gid (PersonalityStore.createNewPersonality env gid)) gid
      = some (PersonalityStore.createNewPersonality env gid) := alookup_aset_self _ _ _
  simp only [MoodSystem.updateMood, PersonalityStore.getGuestData, storeWithCreated, h, h2]
  rfl

theorem updateMood_idem_present (cfg : Config) (env : Env) (gid : ℕ) (g : Guest)
    (st : Store) (p : Personality) (hp : alookup st.guests gid = some p) :
    MoodSystem.updateMood true cfg env gid
        (MoodSystem.updateMood true cfg env gid g st).2
        (MoodSystem.updateMood true cfg env gid g st).1
      = MoodSystem.updateMood true cfg env gid g st := by
  by_cases hc : (MoodSystem.calculateMood cfg env g p).current = p.mood.current ∧
      |(MoodSystem.calculateMood cfg env g p).intensity - p.mood.intensity| ≤ 10
  · rw [updateMood_of_present_noop cfg env gid g st p hp hc.1 hc.2]
    exact updateMood_of_present_noop cfg env gid g st p hp hc.1 hc.2
  · have hc' : (MoodSystem.calculateMood cfg env g p).current ≠ p.mood.current ∨
        |(MoodSystem.calculateMood cfg env g p).intensity - p.mood.intensity| > 10 := by
      rcases not_and_or.mp hc with h1 | h2
      · exact Or.inl h1
      · exact Or.inr (not_le.mp h2)
    obtain ⟨h1, h2, h3, h4, h5, h6, h7⟩ :=
      applyMoodEffects_preserves true cfg g (replacedProfile cfg env g p)
    have hcg := calculateMood_congr cfg env g
      (MoodSystem.applyMoodEffects true cfg g (replacedProfile cfg env g p))
      p (replacedProfile cfg env g p) h1 h2 h3 h4 h5 h6 h7 rfl
    have hcur : (MoodSystem.calculateMood cfg env
        (MoodSystem.applyMoodEffects true cfg g (replacedProfile cfg env g p))
        (replacedProfile cfg env g p)).current
        = (replacedProfile cfg env g p).mood.current := by
      rw [hcg.1]
      rfl
    have hint : |(MoodSystem.calculateMood cfg env
        (MoodSystem.applyMoodEffects true cfg g (replacedProfile cfg env g p))
        (replacedProfile cfg env g p)).intensity
        - (replacedProfile cfg env g p).mood.intensity| ≤ 10 := by
      rw [hcg.2]
      have hq : (replacedProfile cfg env g p).mood.intensity
          = (MoodSystem.calculateMood cfg env g p).intensity := rfl
      rw [hq, sub_self, abs_zero]
      norm_num
    rw [updateMood_of_present_replace cfg env gid g st p hp hc']
    exact updateMood_of_present_noop cfg env gid
      (MoodSystem.applyMoodEffects true cfg g (replacedProfile cfg env g p))
      { st with guests := aset st.guests gid (replacedProfile cfg env g p) }
      (replacedProfile cfg env g p) (alookup_aset_self _ _ _) hcur hint

theorem updateMood_idem (cfg : Config) (env : Env) (gid : ℕ) (g : Guest) (st : Store) :
    MoodSystem.updateMood true cfg env gid
        (MoodSystem.updateMood true cfg env gid g st).2
        (MoodSystem.updateMood true cfg env gid g st).1
      = MoodSystem.updateMood true cfg env gid g st := by
  cases hl : alookup st.guests gid with
  | some p => exact updateMood_idem_present cfg env gid g st p hl
  | none =>
    rw [updateMood_of_absent cfg env gid g st hl]
    exact updateMood_idem_present cfg env gid g (storeWithCreated env gid st)
      (PersonalityStore.createNewPersonality env gid) (alookup_aset_self _ _ _)

/-- Claim C7: a recomputed mood replaces the stored mood exactly when the
state differs or the intensity differs by more than 10; otherwise the
stored mood, its last-change tick, the mood-change counter and the host
happiness target are all unchanged (the whole store and guest are returned
as-is); and re-evaluating the mood with unchanged inputs is idempotent. -/
theorem updateMood_hysteresis_idempotent :
    (∀ (cfg : Config) (env : Env) (gid : ℕ) (g : Guest) (st : Store) (p : Personality),
        alookup st.guests gid = some p →
        (MoodSystem.calculateMood cfg env g p).current = p.mood.current →
        |(MoodSystem.calculateMood cfg env g p).intensity - p.mood.intensity| ≤ 10 →
        MoodSystem.updateMood true cfg env gid g st = (st, g)) ∧
    (∀ (cfg : Config) (env : Env) (gid : ℕ) (g : Guest) (st : Store) (p : Personality),
        alookup st.guests gid = some p →
        ((MoodSystem.calculateMood cfg env g p).current ≠ p.mood.current ∨
         |(MoodSystem.calculateMood cfg env g p).intensity - p.mood.intensity| > 10) →
        MoodSystem.updateMood true cfg env gid g st =
          ({ st with guests := aset st.guests gid (replacedProfile cfg env g p) },
           MoodSystem.applyMoodEffects true cfg g (replacedProfile cfg env g p)) ∧
        (replacedProfile cfg env g p).mood.current
          = (MoodSystem.calculateMood cfg env g p).current ∧
        (replacedProfile cfg env g p).mood.intensity
          = (MoodSystem.calculateMood cfg env g p).intensity ∧
        (replacedProfile cfg env g p).mood.lastChange = env.tick ∧
        (replacedProfile cfg env g p).stats.moodChanges = p.stats.moodChanges + 1) ∧
    (∀ (cfg : Config) (env : Env) (gid : ℕ) (g : Guest) (st : Store),
        MoodSystem.updateMood true cfg env gid
            (MoodSystem.updateMood true cfg env gid g st).2
            (MoodSystem.updateMood true cfg env gid g st).1
          = MoodSystem.updateMood true cfg env gid g st) := by
  refine ⟨?_, ?_, ?_⟩
  · intro cfg env gid g st p hp hcur hint
    exact updateMood_of_present_noop cfg env gid g st p hp hcur hint
  · intro cfg env gid g st p hp hc
    exact ⟨updateMood_of_present_replace cfg env gid g st p hp hc, rfl, rfl, rfl, rfl⟩
  · intro cfg env gid g st
    exact updateMood_idem cfg env gid g st

/-- Witness for C7: a calm guest whose recomputed mood equals the stored
default (content, 128) — re-evaluation changes nothing. -/
theorem updateMood_hysteresis_idempotent_witness :
    MoodSystem.updateMood true cfgDefault envDefault 0 guestCalm stSingle
      = (stSingle, guestCalm) :=
  updateMood_hysteresis_idempotent.1 cfgDefault envDefault 0 guestCalm stSingle
    (PersonalityStore.createNewPersonality envDefault 0) rfl
    (by norm_num [MoodSystem.calculateMood, PersonalityStore.createNewPersonality,
      PersonalityStore.clampTrait, PersonalityStore.calculateModifiers,
      envDefault, cfgDefault, guestCalm])
    (by norm_num [MoodSystem.calculateMood, PersonalityStore.createNewPersonality,
      PersonalityStore.clampTrait, PersonalityStore.calculateModifiers,
      envDefault, cfgDefault, guestCalm])

/-- Claim C2 (amended): removing the leader of a two-member group via
`removeFromGroup` promotes the remaining member (stored leader reference
and leader flag both updated) and clears the departing guest's social
fields, but the one-member group stays in the store; the next group
maintenance pass (`updateGroup`) then dissolves it because its size is
below 2. -/
theorem removeFromGroup_leader_of_pair_promotes :
    ∀ (st : Store) (env : Env) (a b grpId : ℕ) (p q : Personality) (grp : Group),
      alookup st.guests a = some p →
      p.social.groupId = some grpId →
      alookup st.groups grpId = some grp →
      grp.leaderId = a →
      grp.members = [a, b] →
      a ≠ b →
      alookup st.guests b = some q →
      ((alookup (PersonalityStore.removeFromGroup a st).groups grpId).map Group.leaderId
          = some b ∧
       (alookup (PersonalityStore.removeFromGroup a st).groups grpId).map Group.members
          = some [b] ∧
       (alookup (PersonalityStore.removeFromGroup a st).guests b).map
          (fun r => r.social.isLeader) = some true ∧
       (alookup (PersonalityStore.removeFromGroup a st).guests a).map
          (fun r => r.social.groupId) = some none ∧
       alookup (SocialSystem.updateGroup env grpId
          (PersonalityStore.removeFromGroup a st)).groups grpId = none) := by
  intro st env a b grpId p q grp ha hpg hgrp hleader hm hab hb
  simp only [PersonalityStore.removeFromGroup, ha, hpg, hgrp, hleader, hm,
    List.erase_cons_head, hb, if_true, alookup_aset_ne, alookup_aset_self,
    hab, Ne.symm hab, ne_eq, not_false_iff]
  refine ⟨rfl, rfl, rfl, rfl, ?_⟩
  simp only [SocialSystem.updateGroup, alookup_aset_self, List.length_cons, List.length_nil]
  norm_num
  simp only [SocialSystem.dissolveGroup, alookup_aset_self, List.foldl, alookup_aerase_self]

/-- Witness for C2: the two-member group of `stPair`, its leader removed. -/
theorem removeFromGroup_leader_of_pair_promotes_witness :
    (alookup (PersonalityStore.removeFromGroup 0 stPair).groups 1).map Group.leaderId
        = some 1 ∧
    (alookup (PersonalityStore.removeFromGroup 0 stPair).groups 1).map Group.members
        = some [1] ∧
    (alookup (PersonalityStore.removeFromGroup 0 stPair).guests 1).map
        (fun r => r.social.isLeader) = some true ∧
    (alookup (PersonalityStore.removeFromGroup 0 stPair).guests 0).map
        (fun r => r.social.groupId) = some none ∧
    alookup (SocialSystem.updateGroup envDefault 1
        (PersonalityStore.removeFromGroup 0 stPair)).groups 1 = none :=
  removeFromGroup_leader_of_pair_promotes stPair envDefault 0 1 1 _ _ _
    rfl rfl rfl rfl rfl (by decide) rfl

/-- Claim C5 (amended): recording a ride experience increments that ride's
times-ridden count by 1 and adds the satisfaction to its cumulative total;
the ride becomes the favorite exactly when the new average is strictly
greater than 0.8 with at least 2 rides (not at 0.8 itself), and the worst
experience exactly when the new average is below 0.3; both overwrite the
single stored label. -/
theorem recordRideExperience_spec :
    ∀ (env : Env) (gid rid : ℕ) (s : ℚ) (st : Store) (p : Personality),
      alookup st.guests gid = some p →
      (alookup (RidePreferenceSystem.recordRideExperience env gid rid s st).guests gid
          = some (recordedProfile rid s p) ∧
       alookup (recordedProfile rid s p).memory.ridesRidden rid
          = some { timesRidden := ((alookup p.memory.ridesRidden rid).getD
                      { timesRidden := 0, totalSatisfaction := 0 }).timesRidden + 1
                   totalSatisfaction := ((alookup p.memory.ridesRidden rid).getD
                      { timesRidden := 0, totalSatisfaction := 0 }).totalSatisfaction + s } ∧
       (recordedProfile rid s p).memory.favoriteRide
          = (if (((alookup p.memory.ridesRidden rid).getD
                   { timesRidden := 0, totalSatisfaction := 0 }).totalSatisfaction + s)
                / ((((alookup p.memory.ridesRidden rid).getD
                   { timesRidden := 0, totalSatisfaction := 0 }).timesRidden + 1 : ℕ) : ℚ)
                > 4/5
              ∧ ((alookup p.memory.ridesRidden rid).getD
                   { timesRidden := 0, totalSatisfaction := 0 }).timesRidden + 1 ≥ 2
             then some rid else p.memory.favoriteRide) ∧
       (recordedProfile rid s p).memory.worstExperience
          = (if (((alookup p.memory.ridesRidden rid).getD
                   { timesRidden := 0, totalSatisfaction := 0 }).totalSatisfaction + s)
                / ((((alookup p.memory.ridesRidden rid).getD
                   { timesRidden := 0, totalSatisfaction := 0 }).timesRidden + 1 : ℕ) : ℚ)
                < 3/10
              ∧ ((alookup p.memory.ridesRidden rid).getD
                   { timesRidden := 0, totalSatisfaction := 0 }).timesRidden + 1 ≥ 1
             then some rid else p.memory.worstExperience)) := by
  intro env gid rid s st p hp
  refine ⟨?_, ?_, rfl, rfl⟩
  · simp only [RidePreferenceSystem.recordRideExperience, PersonalityStore.getGuestData, hp]
    exact alookup_aset_self _ _ _
  · exact alookup_aset_self _ _ _

/-- Witness for C5: recording a ride for the stored guest 0 of `stPair`
stores exactly the characterized profile. -/
theorem recordRideExperience_spec_witness :
    alookup (RidePreferenceSystem.recordRideExperience envDefault 0 5 (1/2) stPair).guests 0
        = some (recordedProfile 5 (1/2)
            (profileWith 0 { groupId := some 1, isLeader := true
                             friendIds := [], recentInteractions := 0 })) :=
  (recordRideExperience_spec envDefault 0 5 (1/2) stPair _ rfl).1

end GPE
